import Mathlib

/-!
# Verification of the `server` client (`pkg/server/client.go`)

A shallow embedding of `Connect` from `pkg/server/client.go` of the `ion`
repository, together with theorems settling the specification claims about
it.

`Connect` is an effectful Go function.  We embed it as a deterministic
function of an explicit *trace*: a record of the outcomes of every external
effect the code performs (registry lookups via `findExisting`, process
spawn, the race between the poll timer and the spawned process's exit,
`http.Get`, the bytes arriving on the response stream, and the cancellation
token).  Each branch of the Lean definitions mirrors a branch of the Go
source line by line.

Repository code that `client.go` calls but that is not part of the audited
sources (`findExisting`, `cleanupExisting`, the `Event` struct, the
`contextreader` package, the daemon-side registry publish) is represented
either as trace input (the lookup results) or by definitions explicitly
modelled from the specification, marked as such in their doc comments.
-/

namespace IonServer

/-- A network address, as returned by the registry (`findExisting`).
In the Go code an empty string means "no registration". -/
abbrev Addr := String

/-- A Go `error` value.  `tooLong` stands for `bufio.ErrTooLong` (the
scanner's token-too-long error); `canceled` stands for the context's
cancellation error; `msg` covers every other error. -/
inductive GoErr where
  | msg (s : String)
  | tooLong
  | canceled
  deriving DecidableEq, Repr

/-- Modelled from the spec: the `Event` struct of the `server` package is
not among the audited sources; the spec describes an event record as "a
string type discriminator plus a free-form payload" treated as opaque by
the client. -/
structure Event where
  type : String
  payload : String
  deriving DecidableEq, Repr

/-- Result of one `findExisting(cfgPath, stage)` call: a Go error, or an
optional address (`none` embeds the empty string, i.e. no registration). -/
abbrev LookupResult := Except GoErr (Option Addr)

/-- The effective address a lookup yields in the poll loop, where the Go
code discards the error component (`addr, _ = findExisting(...)`): an
error leaves `addr` empty, i.e. no registration. -/
def LookupResult.effAddr : LookupResult → Option Addr
  | .ok a => a
  | .error _ => none

/-- Winner of the `select` race in the poll loop: either the spawned
process exited (`cmd.Wait()` result, `none` embedding a `nil` error, i.e.
a success exit status), or the 100 ms timer fired. -/
inductive RaceWinner where
  | exited (e : Option GoErr)
  | tick
  deriving DecidableEq, Repr

/-- One iteration of the poll loop: the result of its `findExisting` call
and, in case no registration was found, which `select` arm won. -/
structure PollIter where
  lookup : LookupResult
  race : RaceWinner

/-- Outcome of the poll loop in `Connect`:
`registered a` — a lookup returned a non-empty address and the loop broke;
`procExited e` — the spawned process's exit won the race and the loop
returned `e` (the `cmd.Wait()` result, `none` for a success exit). -/
inductive PollOutcome where
  | registered (a : Addr)
  | procExited (e : Option GoErr)
  deriving DecidableEq, Repr

/-- The poll loop of `Connect` (`for { addr, _ = findExisting(...); ... }`):
each iteration looks up the registry, discarding the error; a non-empty
address breaks the loop; otherwise the loop blocks on the race between
`cmdExited` and `time.After(100ms)`.  `none` means the given trace ended
with the loop still polling. -/
def pollLoop : List PollIter → Option PollOutcome
  | [] => none
  | it :: rest =>
      match it.lookup.effAddr with
      | some a => some (.registered a)
      | none =>
          match it.race with
          | .exited e => some (.procExited e)
          | .tick => pollLoop rest

/-- How the response stream ends, from the reader's point of view:
`clean` — the remote side closed the stream (`io.EOF`, `scanner.Err() = nil`);
`ioErr e` — an I/O fault on the established stream;
`canceled` — the cancellation token fired while a read was pending, so the
context reader unblocked the read with the cancellation error (modelled
from the spec: the `contextreader` package is not among the audited
sources; the spec says the read loop "is bound to an externally supplied
cancellation signal; triggering it must unblock a pending read"). -/
inductive StreamEnding where
  | clean
  | ioErr (e : GoErr)
  | canceled
  deriving DecidableEq, Repr

/-- The data arriving on an established `/stream` response body: the
newline-separated lines, followed by how the stream ends. -/
structure StreamTrace where
  lines : List String
  ending : StreamEnding

/-- The scanner's maximum token size set by
`scanner.Buffer(make([]byte, 4096), 1024*1024*100)`. -/
def maxLineBytes : Nat := 1024 * 1024 * 100

/-- `bufio.Scanner` over the stream: yields each line until one exceeds
the maximum token size — then scanning stops at once with
`bufio.ErrTooLong` and the oversized line is *not* yielded — and otherwise
until the stream ends; the returned error is `scanner.Err()`: `none` after
a clean close, the fault after an I/O error, the cancellation error after
a cancellation. -/
def scanTokens (limit : Nat) : List String → StreamEnding → List String × Option GoErr
  | [], .clean => ([], none)
  | [], .ioErr e => ([], some e)
  | [], .canceled => ([], some .canceled)
  | l :: rest, ending =>
      if l.length > limit then ([], some .tooLong)
      else
        let r := scanTokens limit rest ending
        (l :: r.1, r.2)

/-- The body of the read loop applied to the scanned lines: each line is
decoded (`json.Unmarshal`); a line that fails to decode is skipped
(`continue`); a decoded event is handed to `input.OnEvent`.  The result is
the list of events delivered to the handler, in order. -/
def readLoop (decode : String → Option Event) (tokens : List String) : List Event :=
  tokens.filterMap decode

/-- The spawn phase of `Connect`: results of `os.Executable()`,
`cmd.Start()`, the poll loop iterations, and `cmd.Process.Release()`
(`none` embeds a `nil` error). -/
structure SpawnTrace where
  execErr : Option GoErr
  startErr : Option GoErr
  poll : List PollIter
  releaseErr : Option GoErr

/-- The trace of one pass through `Connect`'s body: the initial
`findExisting`, the spawn phase (consulted only when the initial lookup
found nothing), whether the cancellation token has been triggered before
the read loop starts (the poll loop and `http.Get` do not consult the
token in the source, so it only affects the context reader), and the
`http.Get` result. -/
structure ConnectTrace where
  initLookup : LookupResult
  spawn : SpawnTrace
  cancelRequested : Bool
  httpGet : Except GoErr StreamTrace

/-- How one pass through `Connect`'s body ends:
`ret e` — `Connect` returns with error `e` (`none` embeds `nil`);
`retry` — `http.Get` failed, so `cleanupExisting` ran and `Connect`
re-invoked itself (`return Connect(ctx, input)`);
`hang` — the trace ended with the poll loop still polling. -/
inductive Outcome where
  | ret (e : Option GoErr)
  | retry
  | hang
  deriving DecidableEq, Repr

/-- The observable behaviour of one pass through `Connect`'s body. -/
structure ConnectObs where
  /-- a daemon process was spawned (`cmd.Start` was called) -/
  spawned : Bool
  /-- the address handed to `http.Get` (`none` if `Connect` returned
  before the connection attempt) -/
  usedAddr : Option Addr
  /-- `cleanupExisting` was called -/
  cleaned : Bool
  /-- the events delivered to `input.OnEvent`, in order -/
  delivered : List Event
  /-- how this pass ended -/
  outcome : Outcome
  deriving DecidableEq, Repr

/-- The connection-and-read phase of `Connect`, entered with the resolved
address `addr`: `http.Get("http://" + addr + "/stream")`; on failure,
`cleanupExisting` then re-invocation; on success, the scanner loop over
the context-wrapped body, then `return scanner.Err()`.  If the token was
already triggered, the context reader fails the first read at once, so
the scanner sees no lines and the cancellation error. -/
def attachPhase (decode : String → Option Event) (t : ConnectTrace)
    (spawned : Bool) (addr : Addr) : ConnectObs :=
  match t.httpGet with
  | .error _ =>
      { spawned := spawned, usedAddr := some addr, cleaned := true
        delivered := [], outcome := .retry }
  | .ok stream =>
      let eff : StreamTrace :=
        if t.cancelRequested then { lines := [], ending := .canceled } else stream
      let scanned := scanTokens maxLineBytes eff.lines eff.ending
      { spawned := spawned, usedAddr := some addr, cleaned := false
        delivered := readLoop decode scanned.1, outcome := .ret scanned.2 }

/-- One pass through the body of `Connect` (`pkg/server/client.go`),
as a function of its effect trace. -/
def connectOnce (decode : String → Option Event) (t : ConnectTrace) : ConnectObs :=
  match t.initLookup with
  | .error e =>
      { spawned := false, usedAddr := none, cleaned := false
        delivered := [], outcome := .ret (some e) }
  | .ok (some addr) => attachPhase decode t false addr
  | .ok none =>
      match t.spawn.execErr with
      | some e =>
          { spawned := false, usedAddr := none, cleaned := false
            delivered := [], outcome := .ret (some e) }
      | none =>
          match t.spawn.startErr with
          | some e =>
              { spawned := false, usedAddr := none, cleaned := false
                delivered := [], outcome := .ret (some e) }
          | none =>
              match pollLoop t.spawn.poll with
              | none =>
                  { spawned := true, usedAddr := none, cleaned := false
                    delivered := [], outcome := .hang }
              | some (.procExited e) =>
                  { spawned := true, usedAddr := none, cleaned := false
                    delivered := [], outcome := .ret e }
              | some (.registered addr) =>
                  match t.spawn.releaseErr with
                  | some e =>
                      { spawned := true, usedAddr := none, cleaned := false
                        delivered := [], outcome := .ret (some e) }
                  | none => attachPhase decode t true addr

/-- `Connect` with its unconditional self-re-invocation on connect
failure, run over a list of per-pass traces: each pass that ends in
`retry` consumes one trace and restarts the flow; the result is the final
return value, or `none` when the given traces were exhausted without
`Connect` returning (the recursion outran the trace). -/
def connectRun (decode : String → Option Event) : List ConnectTrace → Option (Option GoErr)
  | [] => none
  | t :: rest =>
      match (connectOnce decode t).outcome with
      | .ret e => some e
      | .retry => connectRun decode rest
      | .hang => none

/-- Modelled from the spec: the daemon-side registry `Publish` is not among
the audited sources; the spec requires it to be atomic with
create-exclusive semantics — publishing into an empty registry installs
the address and succeeds, while publishing when a registration already
exists leaves the registry unchanged and reports the collision to the
loser (`false`), who must defer to the winner. -/
def publish (reg : Option Addr) (a : Addr) : Option Addr × Bool :=
  match reg with
  | none => (some a, true)
  | some b => (some b, false)

/-- Two daemons spawned by concurrent `Connect` calls, holding addresses
`a1` and `a2`, race their registry publishes; `firstIsOne` selects the
interleaving (which publish executes first against the initially empty
registry).  Returns the final registry content and each daemon's publish
verdict (`true` = won, `false` = collision detected, defer). -/
def publishRace (a1 a2 : Addr) (firstIsOne : Bool) : Option Addr × Bool × Bool :=
  if firstIsOne then
    let r1 := publish none a1
    let r2 := publish r1.1 a2
    (r2.1, r1.2, r2.2)
  else
    let r1 := publish none a2
    let r2 := publish r1.1 a1
    (r2.1, r2.2, r1.2)

/-- The `scanner.Err()` value determined by how the stream ended, when no
line exceeded the maximum token size. -/
def endErr : StreamEnding → Option GoErr
  | .clean => none
  | .ioErr e => some e
  | .canceled => some .canceled

/-- A sample decoder standing in for `json.Unmarshal` in concrete
evaluations: the theorems themselves are parametric in the decoder. -/
def decode0 (s : String) : Option Event :=
  if s = "progress" then some ⟨"progress", "pct 10"⟩
  else if s = "done" then some ⟨"done", ""⟩
  else none

/-- A trace in which the spawned daemon exits with success status (a `nil`
`cmd.Wait()` result) before any registration appears. -/
def traceSuccessExit : ConnectTrace :=
  ⟨.ok none, ⟨none, none, [⟨.ok none, .exited none⟩], none⟩, false,
    .error (.msg "unreached")⟩

/-- A trace in which the cancellation token is triggered from the start,
no registration exists initially, the spawned daemon registers after one
poll tick, and the connection attempt then fails. -/
def traceCancelPoll : ConnectTrace :=
  ⟨.ok none,
    ⟨none, none, [⟨.ok none, .tick⟩, ⟨.ok (some "127.0.0.1:9000"), .tick⟩], none⟩,
    true, .error (.msg "refused")⟩

theorem scanTokens_all_within (limit : Nat) (ending : StreamEnding)
    (lines : List String) (h : ∀ l ∈ lines, l.length ≤ limit) :
    scanTokens limit lines ending = (lines, endErr ending) := by
  induction lines with
  | nil => cases ending <;> rfl
  | cons l rest ih =>
      have hl : ¬ l.length > limit := Nat.not_lt.mpr (h l (List.mem_cons_self l rest))
      have hrest : ∀ x ∈ rest, x.length ≤ limit := fun x hx => h x (List.mem_cons_of_mem l hx)
      simp [scanTokens, hl, ih hrest]

theorem scanTokens_oversized (limit : Nat) (ending : StreamEnding)
    (pre : List String) (big : String) (post : List String)
    (hpre : ∀ l ∈ pre, l.length ≤ limit) (hbig : limit < big.length) :
    scanTokens limit (pre ++ big :: post) ending = (pre, some .tooLong) := by
  induction pre with
  | nil => simp [scanTokens, hbig]
  | cons l rest ih =>
      have hl : ¬ l.length > limit := Nat.not_lt.mpr (hpre l (List.mem_cons_self l rest))
      have hrest : ∀ x ∈ rest, x.length ≤ limit := fun x hx => hpre x (List.mem_cons_of_mem l hx)
      simp [scanTokens, hl, ih hrest]

theorem pollLoop_ticks (ticks : List PollIter)
    (h : ∀ it ∈ ticks, it.lookup.effAddr = none ∧ it.race = .tick)
    (l : List PollIter) :
    pollLoop (ticks ++ l) = pollLoop l := by
  induction ticks with
  | nil => rfl
  | cons it rest ih =>
      have hit := h it (List.mem_cons_self it rest)
      have hrest : ∀ x ∈ rest, x.lookup.effAddr = none ∧ x.race = .tick :=
        fun x hx => h x (List.mem_cons_of_mem it hx)
      simp [pollLoop, hit.1, hit.2, ih hrest]

theorem filterMap_eq_of_forall₂ (decode : String → Option Event)
    (lines : List String) (evs : List Event)
    (h : List.Forall₂ (fun l e => decode l = some e) lines evs) :
    lines.filterMap decode = evs := by
  induction h with
  | nil => rfl
  | cons hle _ ih => simp [List.filterMap_cons, hle, ih]

/-- C3: the read loop's return value distinguishes clean termination from
faults — when the established stream ends because the remote side closes
it cleanly, `Connect` returns `nil` (no error, no cleanup, no retry); when
an I/O fault occurs after the stream was established, that fault is
returned to the caller as a terminal error and no reconnection (cleanup +
re-invocation) is attempted. -/
theorem connect_stream_end_asymmetry (decode : String → Option Event)
    (t : ConnectTrace) (addr : Addr) (lines : List String)
    (hinit : t.initLookup = .ok (some addr))
    (hcancel : t.cancelRequested = false)
    (hlen : ∀ l ∈ lines, l.length ≤ maxLineBytes) :
    (t.httpGet = .ok ⟨lines, .clean⟩ →
      (connectOnce decode t).outcome = .ret none ∧
      (connectOnce decode t).cleaned = false) ∧
    (∀ e : GoErr, t.httpGet = .ok ⟨lines, .ioErr e⟩ →
      (connectOnce decode t).outcome = .ret (some e) ∧
      (connectOnce decode t).cleaned = false) := by
  constructor
  · intro hget
    simp [connectOnce, attachPhase, hinit, hget, hcancel,
      scanTokens_all_within maxLineBytes .clean lines hlen, endErr]
  · intro e hget
    simp [connectOnce, attachPhase, hinit, hget, hcancel,
      scanTokens_all_within maxLineBytes (.ioErr e) lines hlen, endErr]

/-- Closed instance of `connect_stream_end_asymmetry`. -/
theorem connect_stream_end_asymmetry_witness :
    (connectOnce decode0
        ⟨.ok (some "127.0.0.1:9000"), ⟨none, none, [], none⟩, false,
          .ok ⟨["progress", "done"], .clean⟩⟩).outcome = .ret none ∧
    (connectOnce decode0
        ⟨.ok (some "127.0.0.1:9000"), ⟨none, none, [], none⟩, false,
          .ok ⟨["progress", "done"], .ioErr (.msg "reset")⟩⟩).outcome =
      .ret (some (.msg "reset")) :=
  ⟨((connect_stream_end_asymmetry decode0
      ⟨.ok (some "127.0.0.1:9000"), ⟨none, none, [], none⟩, false,
        .ok ⟨["progress", "done"], .clean⟩⟩ "127.0.0.1:9000" ["progress", "done"]
      rfl rfl (by decide)).1 rfl).1,
   ((connect_stream_end_asymmetry decode0
      ⟨.ok (some "127.0.0.1:9000"), ⟨none, none, [], none⟩, false,
        .ok ⟨["progress", "done"], .ioErr (.msg "reset")⟩⟩ "127.0.0.1:9000"
      ["progress", "done"] rfl rfl (by decide)).2 (.msg "reset") rfl).1⟩

/-- C4: a line that fails to decode as a valid `Event` is skipped — the
handler is not invoked for it and the read loop continues; a malformed
line between two well-formed event lines leaves both well-formed events
delivered to the handler, in order, and the loop still terminates cleanly
with no error. -/
theorem connect_skips_malformed (decode : String → Option Event)
    (t : ConnectTrace) (addr : Addr) (g1 b g2 : String) (e1 e2 : Event)
    (hinit : t.initLookup = .ok (some addr))
    (hcancel : t.cancelRequested = false)
    (hget : t.httpGet = .ok ⟨[g1, b, g2], .clean⟩)
    (hg1 : decode g1 = some e1) (hb : decode b = none) (hg2 : decode g2 = some e2)
    (hlen : ∀ l ∈ [g1, b, g2], l.length ≤ maxLineBytes) :
    (connectOnce decode t).delivered = [e1, e2] ∧
    (connectOnce decode t).outcome = .ret none := by
  simp [connectOnce, attachPhase, hinit, hget, hcancel,
    scanTokens_all_within maxLineBytes .clean [g1, b, g2] hlen, endErr,
    readLoop, List.filterMap_cons, hg1, hb, hg2]

/-- Closed instance of `connect_skips_malformed`. -/
theorem connect_skips_malformed_witness :
    (connectOnce decode0
        ⟨.ok (some "127.0.0.1:9000"), ⟨none, none, [], none⟩, false,
          .ok ⟨["progress", "garbage", "done"], .clean⟩⟩).delivered =
      [⟨"progress", "pct 10"⟩, ⟨"done", ""⟩] :=
  (connect_skips_malformed decode0
    ⟨.ok (some "127.0.0.1:9000"), ⟨none, none, [], none⟩, false,
      .ok ⟨["progress", "garbage", "done"], .clean⟩⟩ "127.0.0.1:9000"
    "progress" "garbage" "done" ⟨"progress", "pct 10"⟩ ⟨"done", ""⟩
    rfl rfl rfl rfl rfl rfl (by decide)).1

/-- C5: a line longer than the maximum token size is a hard stream error —
the read loop stops and `Connect` returns `bufio.ErrTooLong`; the
oversized line is never delivered (not even truncated) and no event on the
stream after it is delivered: only the events decoded from the lines
strictly before it reach the handler. -/
theorem connect_oversized_line (decode : String → Option Event)
    (t : ConnectTrace) (addr : Addr) (pre : List String) (big : String)
    (post : List String) (ending : StreamEnding)
    (hinit : t.initLookup = .ok (some addr))
    (hcancel : t.cancelRequested = false)
    (hget : t.httpGet = .ok ⟨pre ++ big :: post, ending⟩)
    (hpre : ∀ l ∈ pre, l.length ≤ maxLineBytes)
    (hbig : maxLineBytes < big.length) :
    (connectOnce decode t).outcome = .ret (some .tooLong) ∧
    (connectOnce decode t).delivered = pre.filterMap decode := by
  simp [connectOnce, attachPhase, hinit, hget, hcancel,
    scanTokens_oversized maxLineBytes ending pre big post hpre hbig, readLoop]

/-- Closed instance of `connect_oversized_line`: a 100 MB + 1 byte line
after one good line stops the stream with `ErrTooLong`, and only the event
before it is delivered. -/
theorem connect_oversized_line_witness :
    (connectOnce decode0
        ⟨.ok (some "127.0.0.1:9000"), ⟨none, none, [], none⟩, false,
          .ok ⟨["progress", String.mk (List.replicate (maxLineBytes + 1) 'x'), "done"],
            .clean⟩⟩).outcome = .ret (some .tooLong) ∧
    (connectOnce decode0
        ⟨.ok (some "127.0.0.1:9000"), ⟨none, none, [], none⟩, false,
          .ok ⟨["progress", String.mk (List.replicate (maxLineBytes + 1) 'x'), "done"],
            .clean⟩⟩).delivered = [⟨"progress", "pct 10"⟩] := by
  have hlen : (String.mk (List.replicate (maxLineBytes + 1) 'x')).length
      = maxLineBytes + 1 := List.length_replicate _ _
  have h := connect_oversized_line decode0
    ⟨.ok (some "127.0.0.1:9000"), ⟨none, none, [], none⟩, false,
      .ok ⟨["progress", String.mk (List.replicate (maxLineBytes + 1) 'x'), "done"],
        .clean⟩⟩ "127.0.0.1:9000" ["progress"]
    (String.mk (List.replicate (maxLineBytes + 1) 'x')) ["done"] .clean
    rfl rfl rfl (by decide)
    (by rw [hlen]; exact Nat.lt_succ_self _)
  exact ⟨h.1, by rw [h.2]; rfl⟩

/-- C6: for a stream of lines that all decode, ending in a clean close,
the handler is invoked exactly once per line — as many invocations as
lines — in arrival order with exactly the decoded events, and `Connect`
then returns `nil`.  (Delivery is synchronous by construction: the read
loop is a sequential fold, each `OnEvent` call returning before the next
line is scanned.) -/
theorem connect_delivers_all_events (decode : String → Option Event)
    (t : ConnectTrace) (addr : Addr) (lines : List String) (evs : List Event)
    (hinit : t.initLookup = .ok (some addr))
    (hcancel : t.cancelRequested = false)
    (hget : t.httpGet = .ok ⟨lines, .clean⟩)
    (hdec : List.Forall₂ (fun l e => decode l = some e) lines evs)
    (hlen : ∀ l ∈ lines, l.length ≤ maxLineBytes) :
    (connectOnce decode t).delivered = evs ∧
    evs.length = lines.length ∧
    (connectOnce decode t).outcome = .ret none := by
  refine ⟨?_, (List.Forall₂.length_eq hdec).symm, ?_⟩ <;>
    simp [connectOnce, attachPhase, hinit, hget, hcancel,
      scanTokens_all_within maxLineBytes .clean lines hlen, endErr,
      readLoop, filterMap_eq_of_forall₂ decode lines evs hdec]

/-- Closed instance of `connect_delivers_all_events`: the spec's §8
scenario — two events published then a clean close deliver exactly those
two events in order, and `Connect` returns with no error. -/
theorem connect_delivers_all_events_witness :
    (connectOnce decode0
        ⟨.ok (some "127.0.0.1:9000"), ⟨none, none, [], none⟩, false,
          .ok ⟨["progress", "done"], .clean⟩⟩).delivered =
      [⟨"progress", "pct 10"⟩, ⟨"done", ""⟩] ∧
    (connectOnce decode0
        ⟨.ok (some "127.0.0.1:9000"), ⟨none, none, [], none⟩, false,
          .ok ⟨["progress", "done"], .clean⟩⟩).outcome = .ret none := by
  have h := connect_delivers_all_events decode0
    ⟨.ok (some "127.0.0.1:9000"), ⟨none, none, [], none⟩, false,
      .ok ⟨["progress", "done"], .clean⟩⟩ "127.0.0.1:9000"
    ["progress", "done"] [⟨"progress", "pct 10"⟩, ⟨"done", ""⟩]
    rfl rfl rfl (.cons rfl (.cons rfl .nil)) (by decide)
  exact ⟨h.1, h.2.2⟩

/-- C7: when the initial registry lookup yields an address, `Connect`
hands exactly that address to the stream-attach attempt (`http.Get`)
without spawning a daemon; this holds whatever the connection attempt
then does — no liveness probe precedes it, liveness being established
only by the attempt itself (success streams, failure triggers the
stale-entry path). -/
theorem connect_uses_found_addr (decode : String → Option Event)
    (t : ConnectTrace) (addr : Addr)
    (hinit : t.initLookup = .ok (some addr)) :
    (connectOnce decode t).spawned = false ∧
    (connectOnce decode t).usedAddr = some addr := by
  cases hget : t.httpGet with
  | error e => simp [connectOnce, attachPhase, hinit, hget]
  | ok stream => simp [connectOnce, attachPhase, hinit, hget]

/-- Closed instance of `connect_uses_found_addr`. -/
theorem connect_uses_found_addr_witness :
    (connectOnce decode0
        ⟨.ok (some "127.0.0.1:9000"), ⟨none, none, [], none⟩, false,
          .error (.msg "refused")⟩).spawned = false ∧
    (connectOnce decode0
        ⟨.ok (some "127.0.0.1:9000"), ⟨none, none, [], none⟩, false,
          .error (.msg "refused")⟩).usedAddr = some "127.0.0.1:9000" :=
  connect_uses_found_addr decode0
    ⟨.ok (some "127.0.0.1:9000"), ⟨none, none, [], none⟩, false,
      .error (.msg "refused")⟩ "127.0.0.1:9000" rfl

/-- C10: registry lookup failures are asymmetric — an error from the
initial `findExisting` aborts `Connect` immediately with that error and
nothing is spawned, while an error from a `findExisting` call inside the
post-spawn polling loop is discarded (`addr, _ = findExisting`) and
treated exactly like "not yet registered"; a persistently failing registry
never surfaces an error from the loop, which keeps polling. -/
theorem connect_lookup_error_asymmetry (decode : String → Option Event)
    (t : ConnectTrace) (e : GoErr) (race : RaceWinner) (rest : List PollIter) :
    (t.initLookup = .error e →
      connectOnce decode t =
        ⟨false, none, false, [], .ret (some e)⟩) ∧
    pollLoop (⟨.error e, race⟩ :: rest) = pollLoop (⟨.ok none, race⟩ :: rest) ∧
    (∀ n : Nat, pollLoop (List.replicate n ⟨.error e, .tick⟩) = none) := by
  refine ⟨fun hinit => by simp [connectOnce, hinit], rfl, fun n => ?_⟩
  induction n with
  | zero => rfl
  | succ k ih => simpa [List.replicate_succ, pollLoop, LookupResult.effAddr] using ih

/-- Closed instance of `connect_lookup_error_asymmetry`. -/
theorem connect_lookup_error_asymmetry_witness :
    connectOnce decode0
        ⟨.error (.msg "registry io"), ⟨none, none, [], none⟩, false,
          .error (.msg "unused")⟩ =
      ⟨false, none, false, [], .ret (some (.msg "registry io"))⟩ :=
  (connect_lookup_error_asymmetry decode0
    ⟨.error (.msg "registry io"), ⟨none, none, [], none⟩, false,
      .error (.msg "unused")⟩ (.msg "registry io") .tick []).1 rfl

/-- C1 counterexample: in the execution where the spawned daemon exits
with success status before any registration appears, `Connect` does not
surface a fatal `SpawnFailure` error — it returns the `nil` result of
`cmd.Wait()` (`return err` with `err = nil`), indistinguishable from
success for the caller. -/
theorem connect_success_exit_returns_nil :
    connectOnce decode0 traceSuccessExit = ⟨true, none, false, [], .ret none⟩ :=
  rfl

/-- C1 (amended): during `Connect`, when no registration is found and a
daemon is spawned, the launcher polls the registry racing against the
process's exit; poll iterations finding nothing keep polling; if the
process exits before a registration appears, polling stops and the
process's `cmd.Wait()` result is returned *as is* — an error when the
process failed, but a `nil` (success) return when the process exited with
success status; if a registration appears, polling stops and that address
is used for the stream attempt. -/
theorem connect_spawn_poll_race (decode : String → Option Event)
    (t : ConnectTrace) (ticks : List PollIter) (it : PollIter)
    (rest : List PollIter)
    (hinit : t.initLookup = .ok none)
    (hexec : t.spawn.execErr = none) (hstart : t.spawn.startErr = none)
    (hticks : ∀ x ∈ ticks, x.lookup.effAddr = none ∧ x.race = .tick)
    (hpoll : t.spawn.poll = ticks ++ it :: rest) :
    (∀ e, it.lookup.effAddr = none → it.race = .exited e →
      (connectOnce decode t).outcome = .ret e ∧
      (connectOnce decode t).spawned = true) ∧
    (∀ a, it.lookup.effAddr = some a → t.spawn.releaseErr = none →
      (connectOnce decode t).usedAddr = some a ∧
      (connectOnce decode t).spawned = true) := by
  have hp : pollLoop t.spawn.poll = pollLoop (it :: rest) := by
    rw [hpoll]; exact pollLoop_ticks ticks hticks _
  constructor
  · intro e hl hr
    simp [connectOnce, hinit, hexec, hstart, hp, pollLoop, hl, hr]
  · intro a hl hrel
    cases hget : t.httpGet with
    | error er =>
        simp [connectOnce, hinit, hexec, hstart, hp, pollLoop, hl, hrel,
          attachPhase, hget]
    | ok stream =>
        simp [connectOnce, hinit, hexec, hstart, hp, pollLoop, hl, hrel,
          attachPhase, hget]

/-- Closed instance of `connect_spawn_poll_race`: one empty tick, then the
daemon exits with status 1 — `Connect` returns that failure. -/
theorem connect_spawn_poll_race_witness :
    (connectOnce decode0
        ⟨.ok none,
          ⟨none, none,
            [⟨.ok none, .tick⟩, ⟨.ok none, .exited (some (.msg "exit status 1"))⟩],
            none⟩,
          false, .error (.msg "unreached")⟩).outcome =
      .ret (some (.msg "exit status 1")) :=
  ((connect_spawn_poll_race decode0
      ⟨.ok none,
        ⟨none, none,
          [⟨.ok none, .tick⟩, ⟨.ok none, .exited (some (.msg "exit status 1"))⟩],
          none⟩,
        false, .error (.msg "unreached")⟩
      [⟨.ok none, .tick⟩] ⟨.ok none, .exited (some (.msg "exit status 1"))⟩ []
      rfl rfl rfl
      (by intro x hx
          have hx1 := List.mem_singleton.mp hx
          subst hx1
          exact ⟨rfl, rfl⟩)
      rfl).1 (some (.msg "exit status 1")) rfl rfl).1

/-- C2: when the registry yields an address but the initial connection
attempt to it fails, `Connect` removes the registry entry
(`cleanupExisting`) and re-invokes the full find-or-start flow from the
beginning (`return Connect(ctx, input)`); the retry is unconditional and
unbounded — any number of consecutive failing passes each restart the
flow, and a run consisting only of such passes never terminates on its
own. -/
theorem connect_retry_on_connect_failure (decode : String → Option Event)
    (t : ConnectTrace) (addr : Addr) (e : GoErr)
    (hinit : t.initLookup = .ok (some addr)) (hget : t.httpGet = .error e) :
    connectOnce decode t = ⟨false, some addr, true, [], .retry⟩ ∧
    (∀ ts rest, (∀ u ∈ ts, (connectOnce decode u).outcome = .retry) →
      connectRun decode (ts ++ rest) = connectRun decode rest) ∧
    (∀ ts, (∀ u ∈ ts, (connectOnce decode u).outcome = .retry) →
      connectRun decode ts = none) := by
  have hrun : ∀ ts, (∀ u ∈ ts, (connectOnce decode u).outcome = .retry) →
      ∀ rest, connectRun decode (ts ++ rest) = connectRun decode rest := by
    intro ts
    induction ts with
    | nil => intro _ _; rfl
    | cons u us ih =>
        intro h rest
        have hu := h u (List.mem_cons_self u us)
        have h2 : ∀ x ∈ us, (connectOnce decode x).outcome = .retry :=
          fun x hx => h x (List.mem_cons_of_mem u hx)
        simp [connectRun, hu, ih h2 rest]
  refine ⟨by simp [connectOnce, attachPhase, hinit, hget],
    fun ts rest h => hrun ts h rest, fun ts h => ?_⟩
  simpa using hrun ts h []

/-- Closed instance of `connect_retry_on_connect_failure`. -/
theorem connect_retry_on_connect_failure_witness :
    connectOnce decode0
        ⟨.ok (some "127.0.0.1:9000"), ⟨none, none, [], none⟩, false,
          .error (.msg "refused")⟩ =
      ⟨false, some "127.0.0.1:9000", true, [], .retry⟩ :=
  (connect_retry_on_connect_failure decode0
    ⟨.ok (some "127.0.0.1:9000"), ⟨none, none, [], none⟩, false,
      .error (.msg "refused")⟩ "127.0.0.1:9000" (.msg "refused") rfl rfl).1

/-- C8 counterexample: the cancellation token is *not* threaded through
the whole flow.  In this execution the token is triggered from the start,
yet `Connect` still spawns a daemon, runs the poll loop to completion
(the loop's `select` has no cancellation arm), hands the resolved address
to `http.Get` (which takes no context), and — that attempt failing —
restarts the entire flow instead of returning: only the read loop,
through the context reader, ever consults the token. -/
theorem connect_cancel_ignored_before_read :
    traceCancelPoll.cancelRequested = true ∧
    connectOnce decode0 traceCancelPoll =
      ⟨true, some "127.0.0.1:9000", true, [], .retry⟩ :=
  ⟨rfl, rfl⟩

/-- C8 (amended): the cancellation token reaches only the read loop,
where the context reader wraps the response body; when the token is
triggered while a read is pending on the established stream, the pending
read unblocks with the cancellation error — the events decoded before the
trigger have been delivered, and `Connect` returns the cancellation
error.  The spawn-and-poll phase and the connection attempt do not
consult the token. -/
theorem connect_cancel_unblocks_read (decode : String → Option Event)
    (t : ConnectTrace) (addr : Addr) (lines : List String)
    (hinit : t.initLookup = .ok (some addr))
    (hcancel : t.cancelRequested = false)
    (hget : t.httpGet = .ok ⟨lines, .canceled⟩)
    (hlen : ∀ l ∈ lines, l.length ≤ maxLineBytes) :
    (connectOnce decode t).outcome = .ret (some .canceled) ∧
    (connectOnce decode t).delivered = readLoop decode lines := by
  simp [connectOnce, attachPhase, hinit, hget, hcancel,
    scanTokens_all_within maxLineBytes .canceled lines hlen, endErr, readLoop]

/-- Closed instance of `connect_cancel_unblocks_read`. -/
theorem connect_cancel_unblocks_read_witness :
    (connectOnce decode0
        ⟨.ok (some "127.0.0.1:9000"), ⟨none, none, [], none⟩, false,
          .ok ⟨["progress"], .canceled⟩⟩).outcome = .ret (some .canceled) :=
  (connect_cancel_unblocks_read decode0
    ⟨.ok (some "127.0.0.1:9000"), ⟨none, none, [], none⟩, false,
      .ok ⟨["progress"], .canceled⟩⟩ "127.0.0.1:9000" ["progress"]
    rfl rfl rfl (by decide)).1

/-- C9: two concurrent `Connect` calls for the same stage key with no
pre-existing registration each spawn a daemon, and the daemons' registry
publishes race under the create-exclusive semantics required of the
registry: in either interleaving exactly one publish wins (the verdicts
differ — the loser detects the collision and defers, leaving exactly one
live daemon), the registry ends holding exactly the winner's address, and
both callers' poll loops resolve to that same single address. -/
theorem connect_publish_race_singleton (a1 a2 : Addr) (firstIsOne : Bool)
    (it1 it2 : RaceWinner) :
    ∃ w : Addr,
      (publishRace a1 a2 firstIsOne).1 = some w ∧
      (publishRace a1 a2 firstIsOne).2.1 ≠ (publishRace a1 a2 firstIsOne).2.2 ∧
      (w = a1 ∨ w = a2) ∧
      pollLoop [⟨.ok (publishRace a1 a2 firstIsOne).1, it1⟩] =
        some (.registered w) ∧
      pollLoop [⟨.ok (publishRace a1 a2 firstIsOne).1, it2⟩] =
        some (.registered w) := by
  cases firstIsOne with
  | true =>
      exact ⟨a1, rfl, by simp [publishRace, publish], Or.inl rfl, rfl, rfl⟩
  | false =>
      exact ⟨a2, rfl, by simp [publishRace, publish], Or.inr rfl, rfl, rfl⟩

end IonServer
